import Mathlib

/-!
Shallow embedding of the geometry and drag-and-drop helpers of the waveterm
repository: the pure functions of src/frontend/faraday/lib/utils.ts and the
drop-target predicate of src/frontend/layout/lib/TileLayout.tsx.

Numbers are modelled as rationals; the JS value undefined (and null) on
optional inputs and results is modelled with Option. Deferred execution in
debounce is modelled by an explicit timer state with a separate firing step.
-/

/-- Rectangle record from utils.ts: width, height, and the offset of its
top-left corner. -/
structure Dimensions where
  width : ℚ
  height : ℚ
  left : ℚ
  top : ℚ
deriving DecidableEq, Repr

/-- Pointer coordinate pair, as delivered by react-dnd. -/
structure XYCoord where
  x : ℚ
  y : ℚ
deriving DecidableEq, Repr

/-- The TS enum DropDirection; its members carry numeric values 0 through 8
in declaration order. -/
inductive DropDirection where
  | Top
  | Right
  | Bottom
  | Left
  | OuterTop
  | OuterRight
  | OuterBottom
  | OuterLeft
  | Center
deriving DecidableEq, Repr

/-- Decode of the numeric enum value: the TS function body computes a number
code and returns it as a DropDirection. Codes outside 0..8 have no enum
member and decode to none. -/
def DropDirection.ofCode : Nat → Option DropDirection
  | 0 => some .Top
  | 1 => some .Right
  | 2 => some .Bottom
  | 3 => some .Left
  | 4 => some .OuterTop
  | 5 => some .OuterRight
  | 6 => some .OuterBottom
  | 7 => some .OuterLeft
  | 8 => some .Center
  | _ => none

/-- The TS enum FlexDirection with members Row and Column. -/
inductive FlexDirection where
  | Row
  | Column
deriving DecidableEq, Repr

/-- utils.ts reverseFlexDirection: Row becomes Column and Column becomes
Row. -/
def reverseFlexDirection (flexDirection : FlexDirection) : FlexDirection :=
  if flexDirection = FlexDirection.Row then FlexDirection.Column else FlexDirection.Row

/-- utils.ts determineDropDirection: classifies a pointer offset against a
rectangle into one of the nine drop directions, or none when an input is
missing, the pointer is outside the rectangle, or the pointer lies on a
diagonal after the center check. Mirrors the source line by line. -/
def determineDropDirection (dimensions : Option Dimensions) (offset : Option XYCoord) :
    Option DropDirection :=
  match dimensions, offset with
  | some dims, some pt =>
    let x := pt.x - dims.left
    let y := pt.y - dims.top
    if y < 0 ∨ y > dims.height ∨ x < 0 ∨ x > dims.width then none
    else
      let centerX1 := (2 * dims.width) / 5
      let centerX2 := (3 * dims.width) / 5
      let centerY1 := (2 * dims.height) / 5
      let centerY2 := (3 * dims.height) / 5
      if x > centerX1 ∧ x < centerX2 ∧ y > centerY1 ∧ y < centerY2 then
        some DropDirection.Center
      else
        let diagonal1 := y * dims.width - x * dims.height
        let diagonal2 := y * dims.width + x * dims.height - dims.height * dims.width
        if diagonal1 = 0 ∨ diagonal2 = 0 then none
        else
          let code0 : Nat := 0
          let code1 := if diagonal2 > 0 then code0 + 1 else code0
          let code2 := if diagonal1 > 0 then 5 - (code1 + 2) else code1
          let xOuter1 := dims.width / 5
          let xOuter2 := dims.width - dims.width / 5
          let yOuter1 := dims.height / 5
          let yOuter2 := dims.height - dims.height / 5
          let code3 := if y < yOuter1 ∨ y > yOuter2 ∨ x < xOuter1 ∨ x > xOuter2 then
            code2 + 4 else code2
          DropDirection.ofCode code3
  | _, _ => none

/-- Pointer x coordinate relative to the rectangle origin, as computed at
the top of determineDropDirection. -/
def relX (dims : Dimensions) (pt : XYCoord) : ℚ :=
  pt.x - dims.left

/-- Pointer y coordinate relative to the rectangle origin, as computed at
the top of determineDropDirection. -/
def relY (dims : Dimensions) (pt : XYCoord) : ℚ :=
  pt.y - dims.top

/-- The diagonal1 quantity of determineDropDirection: zero exactly on the
diagonal from the top-left to the bottom-right corner. -/
def diag1 (dims : Dimensions) (pt : XYCoord) : ℚ :=
  relY dims pt * dims.width - relX dims pt * dims.height

/-- The diagonal2 quantity of determineDropDirection: zero exactly on the
diagonal from the bottom-left to the top-right corner. -/
def diag2 (dims : Dimensions) (pt : XYCoord) : ℚ :=
  relY dims pt * dims.width + relX dims pt * dims.height - dims.height * dims.width

/-- The middle-fifth condition of determineDropDirection: the relative
pointer position is strictly between 2/5 and 3/5 of the extent on both
axes. -/
def inCenterRegion (dims : Dimensions) (pt : XYCoord) : Prop :=
  relX dims pt > (2 * dims.width) / 5 ∧ relX dims pt < (3 * dims.width) / 5 ∧
    relY dims pt > (2 * dims.height) / 5 ∧ relY dims pt < (3 * dims.height) / 5

instance (dims : Dimensions) (pt : XYCoord) : Decidable (inCenterRegion dims pt) := by
  unfold inCenterRegion
  exact inferInstance

/-- The outer-fifth condition of determineDropDirection: the relative
pointer position is closer than 1/5 of the extent to one of the four
edges. -/
def inOuterMargin (dims : Dimensions) (pt : XYCoord) : Prop :=
  relY dims pt < dims.height / 5 ∨ relY dims pt > dims.height - dims.height / 5 ∨
    relX dims pt < dims.width / 5 ∨ relX dims pt > dims.width - dims.width / 5

instance (dims : Dimensions) (pt : XYCoord) : Decidable (inOuterMargin dims pt) := by
  unfold inOuterMargin
  exact inferInstance

/-- The inner quadrant picked by the sign pattern of the two diagonal
quantities, matching the code arithmetic of determineDropDirection. -/
def innerQuadrant (d1 d2 : ℚ) : DropDirection :=
  if 0 < d1 then (if 0 < d2 then DropDirection.Bottom else DropDirection.Left)
  else (if 0 < d2 then DropDirection.Right else DropDirection.Top)

/-- Upgrade of an inner direction to its Outer variant, the effect of the
code increment by 4; directions without an Outer variant are unchanged. -/
def toOuter : DropDirection → DropDirection
  | DropDirection.Top => DropDirection.OuterTop
  | DropDirection.Right => DropDirection.OuterRight
  | DropDirection.Bottom => DropDirection.OuterBottom
  | DropDirection.Left => DropDirection.OuterLeft
  | d => d

/-- Rotation of a pointer by 180 degrees about the center of a rectangle,
in the shared coordinate space of determineDropDirection. -/
def rotate180 (dims : Dimensions) (pt : XYCoord) : XYCoord :=
  ⟨2 * (dims.left + dims.width / 2) - pt.x, 2 * (dims.top + dims.height / 2) - pt.y⟩

/-- The direction swap induced by a 180 degree rotation: vertical and
horizontal directions trade places, Center is fixed. -/
def swapDirection : DropDirection → DropDirection
  | DropDirection.Top => DropDirection.Bottom
  | DropDirection.Bottom => DropDirection.Top
  | DropDirection.Left => DropDirection.Right
  | DropDirection.Right => DropDirection.Left
  | DropDirection.OuterTop => DropDirection.OuterBottom
  | DropDirection.OuterBottom => DropDirection.OuterTop
  | DropDirection.OuterLeft => DropDirection.OuterRight
  | DropDirection.OuterRight => DropDirection.OuterLeft
  | DropDirection.Center => DropDirection.Center

/-- CSS translate value translate(Xpx,Ypx), modelled structurally by its
two pixel offsets. -/
structure TranslateValue where
  x : ℚ
  y : ℚ
deriving DecidableEq, Repr

/-- The CSSProperties object literal produced by setTransform: the keys it
sets, with length values carried as their pixel magnitude and the optional
width and height modelled as Option (none for the JS value undefined). -/
structure CSSProperties where
  top : ℚ
  left : ℚ
  transform : TranslateValue
  WebkitTransform : TranslateValue
  MozTransform : TranslateValue
  msTransform : TranslateValue
  OTransform : TranslateValue
  width : Option ℚ
  height : Option ℚ
  position : String
deriving DecidableEq, Repr

/-- utils.ts setTransform: absolute positioning at offset zero with a
translate transform by the rectangle offset, and explicit size only when
setSize is true (the default). -/
def setTransform (dims : Dimensions) (setSize : Bool := true) : CSSProperties :=
  let translate : TranslateValue := ⟨dims.left, dims.top⟩
  { top := 0
    left := 0
    transform := translate
    WebkitTransform := translate
    MozTransform := translate
    msTransform := translate
    OTransform := translate
    width := if setSize then some dims.width else none
    height := if setSize then some dims.height else none
    position := "absolute" }

/-- A JS value that may be undefined. -/
inductive JSVal (β : Type) where
  | undef
  | val (b : β)
deriving DecidableEq, Repr

/-- State of the closure returned by debounce: the scheduled timeout, held
as the argument list captured by its thunk, or none when nothing is
scheduled. A new invocation replaces it (clearTimeout then setTimeout). -/
structure DebounceState (α : Type) where
  pendingArgs : Option α
deriving DecidableEq, Repr

/-- One invocation of the wrapper returned by debounce (utils.ts): the
invocation local result starts undefined, clearTimeout cancels any pending
thunk, setTimeout schedules the callback for after the wait, and the
wrapper returns result before the scheduled thunk can assign to it. -/
def debouncedCall {α β : Type} (callback : α → β) (waitFor : ℚ) (st : DebounceState α)
    (args : α) : JSVal β × DebounceState α :=
  let result : JSVal β := JSVal.undef
  let _ := callback
  let _ := waitFor
  (result, { pendingArgs := some args })

/-- Firing of the scheduled timeout: runs the callback on the captured
arguments and clears the timeout; the produced value only reaches the
invocation local of an invocation that has already returned. No-op when
nothing is scheduled. -/
def debounceTimerFire {α β : Type} (callback : α → β) (st : DebounceState α) :
    Option β × DebounceState α :=
  match st.pendingArgs with
  | some args => (some (callback args), { pendingArgs := none })
  | none => (none, st)

/-- Layout tree node as consulted by the overlay drop target: only the id
field participates in the canDrop predicate; the rest of the node is opaque
here. Per the spec, an id is a unique stable identifier. -/
structure LayoutNode where
  id : String
deriving DecidableEq, Repr

/-- The drop monitor facts consulted by the canDrop predicate of
OverlayNode: whether the monitor reports a shallow hover over this target,
and the item being dragged (none when getItem yields nothing). -/
structure DropTargetMonitorState where
  isOverShallow : Bool
  dragItem : Option LayoutNode
deriving DecidableEq, Repr

/-- canDrop of the OverlayNode drop target (TileLayout.tsx): true when the
monitor reports a shallow hover and the optionally chained id of the drag
item differs from the id of the hovered overlay node. -/
def overlayCanDrop (layoutNode : LayoutNode) (monitor : DropTargetMonitorState) : Bool :=
  let dragItem := monitor.dragItem
  if monitor.isOverShallow && (Option.map LayoutNode.id dragItem != some layoutNode.id) then
    true
  else
    false

/-- Characterization of determineDropDirection on pointers inside the
rectangle and off both diagonals: center region gives Center, otherwise the
quadrant picked by the diagonal signs, upgraded to its Outer variant inside
the outer margin. -/
theorem determineDropDirection_characterization (dims : Dimensions) (pt : XYCoord)
    (hx0 : 0 ≤ relX dims pt) (hxw : relX dims pt ≤ dims.width)
    (hy0 : 0 ≤ relY dims pt) (hyh : relY dims pt ≤ dims.height)
    (hd1 : diag1 dims pt ≠ 0) (hd2 : diag2 dims pt ≠ 0) :
    determineDropDirection (some dims) (some pt) =
      some (if inCenterRegion dims pt then DropDirection.Center
        else if inOuterMargin dims pt then
          toOuter (innerQuadrant (diag1 dims pt) (diag2 dims pt))
        else innerQuadrant (diag1 dims pt) (diag2 dims pt)) := by
  obtain ⟨w, h, l, t⟩ := dims
  obtain ⟨a, b⟩ := pt
  simp only [relX, relY, diag1, diag2, inCenterRegion, inOuterMargin] at *
  simp only [determineDropDirection]
  rw [if_neg (by push_neg; exact ⟨hy0, hyh, hx0, hxw⟩)]
  by_cases hc : a - l > 2 * w / 5 ∧ a - l < 3 * w / 5 ∧ b - t > 2 * h / 5 ∧ b - t < 3 * h / 5
  · rw [if_pos hc, if_pos hc]
  · rw [if_neg hc, if_neg hc]
    rw [if_neg (by push_neg; exact ⟨hd1, hd2⟩)]
    rcases hd1.lt_or_lt with h1 | h1 <;> rcases hd2.lt_or_lt with h2 | h2 <;>
      by_cases ho : b - t < h / 5 ∨ b - t > h - h / 5 ∨ a - l < w / 5 ∨ a - l > w - w / 5 <;>
        simp [ho, innerQuadrant, toOuter, DropDirection.ofCode, h1, h2,
          not_lt.mpr h1.le, not_lt.mpr h2.le]

/-- Relative x coordinate of a pointer rotated 180 degrees about the
rectangle center. -/
theorem relX_rotate180 (dims : Dimensions) (pt : XYCoord) :
    relX dims (rotate180 dims pt) = dims.width - relX dims pt := by
  simp only [relX, rotate180]
  ring

/-- Relative y coordinate of a pointer rotated 180 degrees about the
rectangle center. -/
theorem relY_rotate180 (dims : Dimensions) (pt : XYCoord) :
    relY dims (rotate180 dims pt) = dims.height - relY dims pt := by
  simp only [relY, rotate180]
  ring

/-- The first diagonal quantity changes sign under 180 degree rotation. -/
theorem diag1_rotate180 (dims : Dimensions) (pt : XYCoord) :
    diag1 dims (rotate180 dims pt) = -diag1 dims pt := by
  simp only [diag1, relX, relY, rotate180]
  ring

/-- The second diagonal quantity changes sign under 180 degree rotation. -/
theorem diag2_rotate180 (dims : Dimensions) (pt : XYCoord) :
    diag2 dims (rotate180 dims pt) = -diag2 dims pt := by
  simp only [diag2, relX, relY, rotate180]
  ring

/-- The center-fifth region is invariant under 180 degree rotation. -/
theorem inCenterRegion_rotate180 (dims : Dimensions) (pt : XYCoord) :
    inCenterRegion dims (rotate180 dims pt) ↔ inCenterRegion dims pt := by
  unfold inCenterRegion
  rw [relX_rotate180, relY_rotate180]
  constructor
  · rintro ⟨h1, h2, h3, h4⟩
    exact ⟨by linarith, by linarith, by linarith, by linarith⟩
  · rintro ⟨h1, h2, h3, h4⟩
    exact ⟨by linarith, by linarith, by linarith, by linarith⟩

/-- The outer-fifth margin is invariant under 180 degree rotation. -/
theorem inOuterMargin_rotate180 (dims : Dimensions) (pt : XYCoord) :
    inOuterMargin dims (rotate180 dims pt) ↔ inOuterMargin dims pt := by
  unfold inOuterMargin
  rw [relX_rotate180, relY_rotate180]
  constructor
  · rintro (h1 | h1 | h1 | h1)
    · exact Or.inr (Or.inl (by linarith))
    · exact Or.inl (by linarith)
    · exact Or.inr (Or.inr (Or.inr (by linarith)))
    · exact Or.inr (Or.inr (Or.inl (by linarith)))
  · rintro (h1 | h1 | h1 | h1)
    · exact Or.inr (Or.inl (by linarith))
    · exact Or.inl (by linarith)
    · exact Or.inr (Or.inr (Or.inr (by linarith)))
    · exact Or.inr (Or.inr (Or.inl (by linarith)))

/-- Negating both diagonal quantities swaps the inner quadrant. -/
theorem innerQuadrant_neg (d1 d2 : ℚ) (h1 : d1 ≠ 0) (h2 : d2 ≠ 0) :
    innerQuadrant (-d1) (-d2) = swapDirection (innerQuadrant d1 d2) := by
  rcases h1.lt_or_lt with hlt1 | hlt1 <;> rcases h2.lt_or_lt with hlt2 | hlt2 <;>
    simp [innerQuadrant, swapDirection, neg_pos, hlt1, hlt2,
      not_lt.mpr hlt1.le, not_lt.mpr hlt2.le]

/-- The outer upgrade commutes with the rotation swap. -/
theorem toOuter_swapDirection (d : DropDirection) :
    toOuter (swapDirection d) = swapDirection (toOuter d) := by
  cases d <;> rfl

/-- Claim C1: for every rectangle with positive width and height and every
pointer strictly inside it and off both diagonals, determineDropDirection
returns one of the nine drop directions, never none. Determinism holds by
construction, determineDropDirection being a function of the rectangle and
pointer alone. -/
theorem dropDirection_total_inside_off_diagonals (dims : Dimensions) (pt : XYCoord)
    (hw : 0 < dims.width) (hh : 0 < dims.height)
    (hx0 : 0 < relX dims pt) (hxw : relX dims pt < dims.width)
    (hy0 : 0 < relY dims pt) (hyh : relY dims pt < dims.height)
    (hd1 : diag1 dims pt ≠ 0) (hd2 : diag2 dims pt ≠ 0) :
    ∃ d : DropDirection, determineDropDirection (some dims) (some pt) = some d :=
  ⟨_, determineDropDirection_characterization dims pt hx0.le hxw.le hy0.le hyh.le hd1 hd2⟩

unseal Rat.mul Rat.inv Rat.add Rat.sub in
/-- Witness for claim C1 at the 100 by 100 rectangle and pointer (10, 50). -/
theorem dropDirection_total_inside_off_diagonals_witness :
    ∃ d : DropDirection,
      determineDropDirection (some ⟨100, 100, 0, 0⟩) (some ⟨10, 50⟩) = some d :=
  dropDirection_total_inside_off_diagonals ⟨100, 100, 0, 0⟩ ⟨10, 50⟩ (by decide) (by decide)
    (by decide) (by decide) (by decide) (by decide) (by decide) (by decide)

unseal Rat.mul Rat.inv Rat.add Rat.sub in
/-- Claim C2 counterexample: the pointer (45, 45) lies within the 100 by
100 rectangle exactly on its first diagonal, yet determineDropDirection
returns Center rather than none, because the center check precedes the
diagonal check. -/
theorem dropDirection_diagonal_counterexample :
    0 ≤ relX ⟨100, 100, 0, 0⟩ ⟨45, 45⟩ ∧ relX ⟨100, 100, 0, 0⟩ ⟨45, 45⟩ ≤ 100 ∧
    0 ≤ relY ⟨100, 100, 0, 0⟩ ⟨45, 45⟩ ∧ relY ⟨100, 100, 0, 0⟩ ⟨45, 45⟩ ≤ 100 ∧
    diag1 ⟨100, 100, 0, 0⟩ ⟨45, 45⟩ = 0 ∧
    determineDropDirection (some ⟨100, 100, 0, 0⟩) (some ⟨45, 45⟩) =
      some DropDirection.Center := by
  decide

/-- Claim C2 as amended: for every rectangle with positive width and height
and every pointer within it lying exactly on one of the two diagonals and
outside the open center-fifth region, determineDropDirection returns
none. -/
theorem dropDirection_diagonal_outside_center_none (dims : Dimensions) (pt : XYCoord)
    (hw : 0 < dims.width) (hh : 0 < dims.height)
    (hx0 : 0 ≤ relX dims pt) (hxw : relX dims pt ≤ dims.width)
    (hy0 : 0 ≤ relY dims pt) (hyh : relY dims pt ≤ dims.height)
    (hdiag : diag1 dims pt = 0 ∨ diag2 dims pt = 0)
    (hnc : ¬inCenterRegion dims pt) :
    determineDropDirection (some dims) (some pt) = none := by
  obtain ⟨w, h, l, t⟩ := dims
  obtain ⟨a, b⟩ := pt
  simp only [relX, relY, diag1, diag2, inCenterRegion] at *
  simp only [determineDropDirection]
  rw [if_neg (by push_neg; exact ⟨hy0, hyh, hx0, hxw⟩), if_neg hnc, if_pos hdiag]

unseal Rat.mul Rat.inv Rat.add Rat.sub in
/-- Witness for amended claim C2 at the on-diagonal pointer (25, 25). -/
theorem dropDirection_diagonal_outside_center_none_witness :
    determineDropDirection (some ⟨100, 100, 0, 0⟩) (some ⟨25, 25⟩) = none :=
  dropDirection_diagonal_outside_center_none ⟨100, 100, 0, 0⟩ ⟨25, 25⟩ (by decide) (by decide)
    (by decide) (by decide) (by decide) (by decide) (Or.inl (by decide)) (by decide)

/-- Claim C3: strictly inside the rectangle, off both diagonals, outside
the center region and within the outer fifth margin, the result is the
Outer variant of the quadrant classification. -/
theorem dropDirection_outer_margin_upgrades (dims : Dimensions) (pt : XYCoord)
    (hw : 0 < dims.width) (hh : 0 < dims.height)
    (hx0 : 0 < relX dims pt) (hxw : relX dims pt < dims.width)
    (hy0 : 0 < relY dims pt) (hyh : relY dims pt < dims.height)
    (hd1 : diag1 dims pt ≠ 0) (hd2 : diag2 dims pt ≠ 0)
    (hnc : ¬inCenterRegion dims pt) (ho : inOuterMargin dims pt) :
    determineDropDirection (some dims) (some pt) =
      some (toOuter (innerQuadrant (diag1 dims pt) (diag2 dims pt))) := by
  rw [determineDropDirection_characterization dims pt hx0.le hxw.le hy0.le hyh.le hd1 hd2,
    if_neg hnc, if_pos ho]

unseal Rat.mul Rat.inv Rat.add Rat.sub in
/-- Witness for claim C3 at the two spec scenarios: pointer (5, 50) gives
OuterLeft and pointer (50, 5) gives OuterTop on the 100 by 100 rectangle. -/
theorem dropDirection_outer_margin_upgrades_witness :
    determineDropDirection (some ⟨100, 100, 0, 0⟩) (some ⟨5, 50⟩) =
      some DropDirection.OuterLeft ∧
    determineDropDirection (some ⟨100, 100, 0, 0⟩) (some ⟨50, 5⟩) =
      some DropDirection.OuterTop := by
  constructor
  · exact (dropDirection_outer_margin_upgrades ⟨100, 100, 0, 0⟩ ⟨5, 50⟩ (by decide) (by decide)
      (by decide) (by decide) (by decide) (by decide) (by decide) (by decide) (by decide)
      (by decide)).trans (by decide)
  · exact (dropDirection_outer_margin_upgrades ⟨100, 100, 0, 0⟩ ⟨50, 5⟩ (by decide) (by decide)
      (by decide) (by decide) (by decide) (by decide) (by decide) (by decide) (by decide)
      (by decide)).trans (by decide)

/-- Claim C4: for a rectangle with positive width and height and a pointer
within it, the result is Center exactly when the relative position is
strictly between 2/5 and 3/5 of the extent on both axes. -/
theorem dropDirection_center_iff (dims : Dimensions) (pt : XYCoord)
    (hw : 0 < dims.width) (hh : 0 < dims.height)
    (hx0 : 0 ≤ relX dims pt) (hxw : relX dims pt ≤ dims.width)
    (hy0 : 0 ≤ relY dims pt) (hyh : relY dims pt ≤ dims.height) :
    determineDropDirection (some dims) (some pt) = some DropDirection.Center ↔
      inCenterRegion dims pt := by
  obtain ⟨w, h, l, t⟩ := dims
  obtain ⟨a, b⟩ := pt
  simp only [relX, relY, inCenterRegion] at *
  constructor
  · intro hEq
    simp only [determineDropDirection] at hEq
    split_ifs at hEq <;> simp_all [DropDirection.ofCode]
  · intro hc
    simp only [determineDropDirection]
    rw [if_neg (by push_neg; exact ⟨hy0, hyh, hx0, hxw⟩), if_pos hc]

unseal Rat.mul Rat.inv Rat.add Rat.sub in
/-- Witness for claim C4 at the spec scenario: pointer (50, 50) on the 100
by 100 rectangle gives Center. -/
theorem dropDirection_center_iff_witness :
    determineDropDirection (some ⟨100, 100, 0, 0⟩) (some ⟨50, 50⟩) =
      some DropDirection.Center :=
  (dropDirection_center_iff ⟨100, 100, 0, 0⟩ ⟨50, 50⟩ (by decide) (by decide) (by decide)
    (by decide) (by decide) (by decide)).mpr (by decide)

/-- Claim C5: for pointers strictly inside the rectangle and off both
diagonals, rotating the pointer 180 degrees about the rectangle center
swaps the classification Top with Bottom and Left with Right, Outer
variants included, and fixes Center. -/
theorem dropDirection_rotate180_equivariant (dims : Dimensions) (pt : XYCoord)
    (hw : 0 < dims.width) (hh : 0 < dims.height)
    (hx0 : 0 < relX dims pt) (hxw : relX dims pt < dims.width)
    (hy0 : 0 < relY dims pt) (hyh : relY dims pt < dims.height)
    (hd1 : diag1 dims pt ≠ 0) (hd2 : diag2 dims pt ≠ 0) :
    determineDropDirection (some dims) (some (rotate180 dims pt)) =
      Option.map swapDirection (determineDropDirection (some dims) (some pt)) := by
  have hrx := relX_rotate180 dims pt
  have hry := relY_rotate180 dims pt
  rw [determineDropDirection_characterization dims pt hx0.le hxw.le hy0.le hyh.le hd1 hd2,
    determineDropDirection_characterization dims (rotate180 dims pt)
      (by rw [hrx]; linarith) (by rw [hrx]; linarith)
      (by rw [hry]; linarith) (by rw [hry]; linarith)
      (by rw [diag1_rotate180]; exact neg_ne_zero.mpr hd1)
      (by rw [diag2_rotate180]; exact neg_ne_zero.mpr hd2)]
  simp only [Option.map_some', diag1_rotate180, diag2_rotate180, inCenterRegion_rotate180,
    inOuterMargin_rotate180]
  by_cases hc : inCenterRegion dims pt
  · rw [if_pos hc, if_pos hc]
    rfl
  · rw [if_neg hc, if_neg hc]
    by_cases ho : inOuterMargin dims pt
    · rw [if_pos ho, if_pos ho, innerQuadrant_neg _ _ hd1 hd2, toOuter_swapDirection]
    · rw [if_neg ho, if_neg ho, innerQuadrant_neg _ _ hd1 hd2]

unseal Rat.mul Rat.inv Rat.add Rat.sub in
/-- Witness for claim C5 at the 100 by 100 rectangle and pointer (10, 50). -/
theorem dropDirection_rotate180_equivariant_witness :
    determineDropDirection (some ⟨100, 100, 0, 0⟩)
        (some (rotate180 ⟨100, 100, 0, 0⟩ ⟨10, 50⟩)) =
      Option.map swapDirection
        (determineDropDirection (some ⟨100, 100, 0, 0⟩) (some ⟨10, 50⟩)) :=
  dropDirection_rotate180_equivariant ⟨100, 100, 0, 0⟩ ⟨10, 50⟩ (by decide) (by decide)
    (by decide) (by decide) (by decide) (by decide) (by decide) (by decide)

/-- Claim C6: a pointer outside the rectangle on either axis yields none. -/
theorem dropDirection_outside_none (dims : Dimensions) (pt : XYCoord)
    (hw : 0 < dims.width) (hh : 0 < dims.height)
    (hout : relX dims pt < 0 ∨ relX dims pt > dims.width ∨
      relY dims pt < 0 ∨ relY dims pt > dims.height) :
    determineDropDirection (some dims) (some pt) = none := by
  obtain ⟨w, h, l, t⟩ := dims
  obtain ⟨a, b⟩ := pt
  simp only [relX, relY] at hout
  simp only [determineDropDirection]
  rw [if_pos (by tauto)]

unseal Rat.mul Rat.inv Rat.add Rat.sub in
/-- Witness for claim C6 at the spec scenario: pointer (150, 50) outside
the 100 by 100 rectangle gives none. -/
theorem dropDirection_outside_none_witness :
    determineDropDirection (some ⟨100, 100, 0, 0⟩) (some ⟨150, 50⟩) = none :=
  dropDirection_outside_none ⟨100, 100, 0, 0⟩ ⟨150, 50⟩ (by decide) (by decide) (by decide)

/-- Claim C7: the overlay drop target accepts a drop candidate only when
the monitor reports a shallow hover and the dragged node id differs from
the hovered node id; in particular a node is never a drop candidate onto
itself. -/
theorem overlayCanDrop_requires_shallow_and_distinct (layoutNode : LayoutNode)
    (monitor : DropTargetMonitorState)
    (h : overlayCanDrop layoutNode monitor = true) :
    monitor.isOverShallow = true ∧
      ∀ item : LayoutNode, monitor.dragItem = some item → item.id ≠ layoutNode.id := by
  simp only [overlayCanDrop] at h
  split at h
  · rename_i hcond
    simp only [Bool.and_eq_true, bne_iff_ne, ne_eq] at hcond
    obtain ⟨hs, hne⟩ := hcond
    refine ⟨hs, ?_⟩
    intro item hitem heq
    apply hne
    rw [hitem, Option.map_some', heq]
  · exact Bool.noConfusion h

/-- Witness for claim C7: a shallow hover with a drag item of a different
id. -/
theorem overlayCanDrop_requires_shallow_and_distinct_witness :
    (⟨true, some ⟨"node-a"⟩⟩ : DropTargetMonitorState).isOverShallow = true ∧
      ∀ item : LayoutNode,
        (⟨true, some ⟨"node-a"⟩⟩ : DropTargetMonitorState).dragItem = some item →
          item.id ≠ (⟨"node-b"⟩ : LayoutNode).id :=
  overlayCanDrop_requires_shallow_and_distinct ⟨"node-b"⟩ ⟨true, some ⟨"node-a"⟩⟩ (by decide)

/-- Claim C8: setTransform yields an absolutely positioned placement whose
transform translates by exactly the rectangle offset, whose top and left
are zero, and whose explicit size is included exactly when setSize is true,
the default; as a Lean function it is pure. -/
theorem setTransform_places_absolutely (dims : Dimensions) (setSize : Bool) :
    (setTransform dims setSize).transform = ⟨dims.left, dims.top⟩ ∧
    (setTransform dims setSize).top = 0 ∧
    (setTransform dims setSize).left = 0 ∧
    (setTransform dims setSize).position = "absolute" ∧
    ((setTransform dims setSize).width = if setSize then some dims.width else none) ∧
    ((setTransform dims setSize).height = if setSize then some dims.height else none) ∧
    setTransform dims = setTransform dims true :=
  ⟨rfl, rfl, rfl, rfl, rfl, rfl, rfl⟩

/-- Claim C9: every invocation of the wrapper returned by debounce hands
undefined back to its caller, whatever the callback returns, and the
callback itself only runs when the scheduled timeout later fires. -/
theorem debounce_returns_undefined_before_callback {α β : Type} (callback : α → β)
    (waitFor : ℚ) (st : DebounceState α) (args : α) :
    (debouncedCall callback waitFor st args).1 = JSVal.undef ∧
    (debounceTimerFire callback (debouncedCall callback waitFor st args).2).1 =
      some (callback args) :=
  ⟨rfl, rfl⟩

/-- Claim C10: reverseFlexDirection is an involution with no fixed point on
the two flex directions. -/
theorem reverseFlexDirection_involutive_without_fixed_point (d : FlexDirection) :
    reverseFlexDirection (reverseFlexDirection d) = d ∧ reverseFlexDirection d ≠ d := by
  cases d <;> simp [reverseFlexDirection]
